import Mathlib

/-!
Verification of the blockid SDK session/connection lifecycle manager and the
secure-link challenge-response protocol, shallowly embedded from
`src/api/ApiSession.ts` (the `ApiSession` and `Api` classes) and
`src/sdk/Sdk.ts` (the `Sdk` orchestrator).  Parts of the repository that are
referenced but whose sources are not available (the `ApiConnection` transport,
the event codec in `src/api/events`, the `Linker`) are modelled from the
specification and marked as such in their doc comments.
-/

namespace BlockId

/-- Session states (`ApiSessionStates` in `src/api/constants.ts`), as used by
`ApiSession`: `Destroyed`, `Verifying`, `Verified`. -/
inductive ApiSessionState
  | Destroyed
  | Verifying
  | Verified
  deriving DecidableEq, Repr

/-- Session attributes (`IApiSessionAttributes`): a state and an optional
token (`token: opaque string | null` becomes `Option String`). -/
structure SessionAttributes where
  state : ApiSessionState
  token : Option String
  deriving DecidableEq, Repr

/-- `ApiSession.prepareAttributes` (src/api/ApiSession.ts:24-38): starts from
the defaults `{state: Destroyed, token: null}` and, when attributes are given,
spreads them over the defaults.  The three mutators always supply both fields,
so spreading a present record yields that record. -/
def ApiSession.prepareAttributes (attributes : Option SessionAttributes) : SessionAttributes :=
  match attributes with
  | none => { state := ApiSessionState.Destroyed, token := none }
  | some a => a

/-- `ApiSession.setAsVerifying` (src/api/ApiSession.ts:79-84): sets
`{token, state: Verifying}` where `token` defaults to `null`. -/
def ApiSession.setAsVerifying (token : Option String) : SessionAttributes :=
  ApiSession.prepareAttributes (some { token := token, state := ApiSessionState.Verifying })

/-- `ApiSession.setAsVerified` (src/api/ApiSession.ts:90-95): sets
`{token, state: Verified}`. -/
def ApiSession.setAsVerified (token : Option String) : SessionAttributes :=
  ApiSession.prepareAttributes (some { token := token, state := ApiSessionState.Verified })

/-- `ApiSession.setAsDestroyed` (src/api/ApiSession.ts:100-102): sets the
attributes to `null`, which `prepareAttributes` turns into the defaults
`{state: Destroyed, token: null}`. -/
def ApiSession.setAsDestroyed : SessionAttributes :=
  ApiSession.prepareAttributes none

/-- One call to a session transition operation, with its arguments. -/
inductive SessionOp
  | setAsVerifying (token : Option String)
  | setAsVerified (token : String)
  | setAsDestroyed
  deriving DecidableEq, Repr

/-- Applying one transition operation to the current attributes.  Each
operation overwrites both fields, exactly as the setters do. -/
def applySessionOp (_s : SessionAttributes) : SessionOp → SessionAttributes
  | SessionOp.setAsVerifying token => ApiSession.setAsVerifying token
  | SessionOp.setAsVerified token => ApiSession.setAsVerified (some token)
  | SessionOp.setAsDestroyed => ApiSession.setAsDestroyed

/-- Running a sequence of transition operations from a starting state. -/
def runSessionOps (s : SessionAttributes) (ops : List SessionOp) : SessionAttributes :=
  ops.foldl applySessionOp s

/-- The session invariant from the spec: `token != null` only when
`state == Verified`. -/
def sessionInvariant (s : SessionAttributes) : Prop :=
  s.token ≠ none → s.state = ApiSessionState.Verified

instance (s : SessionAttributes) : Decidable (sessionInvariant s) := by
  unfold sessionInvariant; infer_instance

/-- The fixed event-kind set (`ApiEvents.Types` in `src/api/events`, as used
throughout `src/api/ApiSession.ts` and `src/sdk/Sdk.ts`): connection
muted/unmuted and mute/unmute-connection carry no payload; account-updated
carries `{ensName}`; the account-device events carry `{account, address}`;
signed-secure-action carries `{recipient|signer, signature}`.  Text and
addresses/signatures/nonces are all carried as byte sequences (`List Nat`). -/
inductive ApiEvent
  | connectionMuted
  | connectionUnMuted
  | muteConnection
  | unMuteConnection
  | accountUpdated (ensName : List Nat)
  | accountDeviceAdded (account : List Nat) (address : List Nat)
  | accountDeviceUpdated (account : List Nat) (address : List Nat)
  | accountDeviceRemoved (account : List Nat) (address : List Nat)
  | signedSecureAction (recipient : List Nat) (signature : List Nat)
  deriving DecidableEq, Repr

/-- A payload field on the wire: its length followed by its bytes. -/
def encodeField (f : List Nat) : List Nat :=
  f.length :: f

/-- Reads one length-prefixed field off the front of a frame, returning the
field and the remaining bytes, or `none` when the frame is truncated. -/
def readField : List Nat → Option (List Nat × List Nat)
  | [] => none
  | n :: rest =>
    if n ≤ rest.length then some (rest.take n, rest.drop n) else none

/-- Modelled from the spec: `encodeApiEvent` (`src/api/events`, not under
`src/`) encodes a typed event into a self-describing binary frame — an
envelope of the event type tag followed by the length-prefixed payload
fields. -/
def encodeApiEvent : ApiEvent → List Nat
  | ApiEvent.connectionMuted => [0]
  | ApiEvent.connectionUnMuted => [1]
  | ApiEvent.muteConnection => [2]
  | ApiEvent.unMuteConnection => [3]
  | ApiEvent.accountUpdated e => 4 :: encodeField e
  | ApiEvent.accountDeviceAdded a d => 5 :: (encodeField a ++ encodeField d)
  | ApiEvent.accountDeviceUpdated a d => 6 :: (encodeField a ++ encodeField d)
  | ApiEvent.accountDeviceRemoved a d => 7 :: (encodeField a ++ encodeField d)
  | ApiEvent.signedSecureAction r s => 8 :: (encodeField r ++ encodeField s)

/-- Decodes a frame body holding no payload field. -/
def decodeNoField (rest : List Nat) (e : ApiEvent) : Option ApiEvent :=
  match rest with
  | [] => some e
  | _ => none

/-- Decodes a frame body holding exactly one length-prefixed payload field. -/
def decodeOneField (rest : List Nat) (mk : List Nat → ApiEvent) : Option ApiEvent :=
  match readField rest with
  | some (f, []) => some (mk f)
  | _ => none

/-- Decodes a frame body holding exactly two length-prefixed payload
fields. -/
def decodeTwoFields (rest : List Nat) (mk : List Nat → List Nat → ApiEvent) :
    Option ApiEvent :=
  match readField rest with
  | some (a, rest2) =>
    match readField rest2 with
    | some (b, []) => some (mk a b)
    | _ => none
  | none => none

/-- Modelled from the spec: `decodeApiEvent` (`src/api/events`, not under
`src/`) decodes a binary frame back into a typed event; unknown or malformed
frames decode to an explicit unrecognized result (`none`) rather than
throwing. -/
def decodeApiEvent : List Nat → Option ApiEvent
  | [] => none
  | t :: rest =>
    if t = 0 then decodeNoField rest ApiEvent.connectionMuted
    else if t = 1 then decodeNoField rest ApiEvent.connectionUnMuted
    else if t = 2 then decodeNoField rest ApiEvent.muteConnection
    else if t = 3 then decodeNoField rest ApiEvent.unMuteConnection
    else if t = 4 then decodeOneField rest ApiEvent.accountUpdated
    else if t = 5 then decodeTwoFields rest ApiEvent.accountDeviceAdded
    else if t = 6 then decodeTwoFields rest ApiEvent.accountDeviceUpdated
    else if t = 7 then decodeTwoFields rest ApiEvent.accountDeviceRemoved
    else if t = 8 then decodeTwoFields rest ApiEvent.signedSecureAction
    else none

/-- Connection states (`ApiConnectionStates` in `src/api/constants.ts`):
`Closed`, `Connecting`, `Opened`. -/
inductive ApiConnectionState
  | Closed
  | Connecting
  | Opened
  deriving DecidableEq, Repr

/-- The error taxonomy of `src/api/errors` as thrown by the code under
`src/`: `errApiInvalidConnectionState`, `errApiUnknownHttpEndpoint`,
`errApiUnknownWsEndpoint`. -/
inductive ApiError
  | InvalidConnectionState
  | UnknownHttpEndpoint
  | UnknownWsEndpoint
  deriving DecidableEq, Repr

/-- The observable per-channel state of the persistent connection: its state,
its muted flag, and the frames handed to `connection.send`. -/
structure ConnectionModel where
  state : ApiConnectionState
  muted : Bool
  sentFrames : List (List Nat)
  deriving DecidableEq, Repr

/-- Modelled from the spec: `connection.opened` (`ApiConnection`, not under
`src/`) reports whether the channel state is `Opened`. -/
def ConnectionModel.opened (c : ConnectionModel) : Bool :=
  c.state = ApiConnectionState.Opened

/-- `Api.sendEvent` (src/api/ApiSession.ts:512-520): throws
`errApiInvalidConnectionState` unless the connection is opened, otherwise
sends the encoded frame.  The pair returned is the connection state after the
call and the error thrown, if any; on the error path the connection is
returned unchanged. -/
def Api.sendEvent (c : ConnectionModel) (e : ApiEvent) :
    ConnectionModel × Option ApiError :=
  if c.opened then
    ({ c with sentFrames := c.sentFrames ++ [encodeApiEvent e] }, none)
  else
    (c, some ApiError.InvalidConnectionState)

/-- `Api.muteConnection` (src/api/ApiSession.ts:273-277): sends a
`MuteConnection` event. -/
def Api.muteConnection (c : ConnectionModel) : ConnectionModel × Option ApiError :=
  Api.sendEvent c ApiEvent.muteConnection

/-- `Api.unMuteConnection` (src/api/ApiSession.ts:282-286): sends an
`UnMuteConnection` event. -/
def Api.unMuteConnection (c : ConnectionModel) : ConnectionModel × Option ApiError :=
  Api.sendEvent c ApiEvent.unMuteConnection

/-- `Api.signSecureAction` (src/api/ApiSession.ts:293-301): sends a
`SignedSecureAction` event carrying the recipient and the hex-encoded
signature. -/
def Api.signSecureAction (c : ConnectionModel) (recipient : List Nat)
    (signature : List Nat) : ConnectionModel × Option ApiError :=
  Api.sendEvent c (ApiEvent.signedSecureAction recipient signature)

/-- Link action types (`LinkerActionsTypes` in `src/linker`, as used by
`src/sdk/Sdk.ts`): `CreateAccountDevice`, `AccountDeviceCreated`,
`Secure`. -/
inductive LinkerActionsTypes
  | CreateAccountDevice
  | AccountDeviceCreated
  | Secure
  deriving DecidableEq, Repr

/-- Link action sender roles (`LinkerActionSenderTypes` in `src/linker`):
the role used by `Sdk.ts` is `Device`; `App` stands for the remaining
roles. -/
inductive LinkerActionSenderTypes
  | Device
  | App
  deriving DecidableEq, Repr

/-- The payloads `Sdk.ts` builds for link actions:
`LinkerActionPayloads.ICreateAccountDevice` carries `{networkVersion,
deviceAddress}` and `LinkerActionPayloads.ISecure` carries `{networkVersion,
hash}`. -/
inductive LinkerActionPayload
  | createAccountDevice (networkVersion : Nat) (deviceAddress : String)
  | secure (networkVersion : Nat) (hash : List Nat)
  deriving DecidableEq, Repr

/-- A link action sender: `{type, data}`. -/
structure LinkerSender where
  type : LinkerActionSenderTypes
  data : Option String
  deriving DecidableEq, Repr

/-- A link action (`ILinkerAction`): `{type, payload, sender?}`. -/
structure LinkerAction where
  type : LinkerActionsTypes
  payload : LinkerActionPayload
  sender : Option LinkerSender
  deriving DecidableEq, Repr

/-- The outstanding secure action (`ISdkSecureAction`): `{type, hash}` with a
16-byte random nonce as the hash. -/
structure SecureAction where
  type : LinkerActionsTypes
  hash : List Nat
  deriving DecidableEq, Repr

/-- The orchestrator state the secure-link flow touches: the single
outstanding challenge slot (`Sdk.secureAction`), the connection, the network
version, the actions emitted on `linker.incomingAction$`, and the number of
errors emitted on `error$`. -/
structure SdkState where
  secureAction : Option SecureAction
  connection : ConnectionModel
  networkVersion : Nat
  incomingActions : List LinkerAction
  errors : Nat
  deriving DecidableEq, Repr

/-- `Sdk.muteApiConnection` (src/sdk/Sdk.ts:131-137): calls
`api.muteConnection`, forwarding a thrown error to `error$`. -/
def Sdk.muteApiConnection (st : SdkState) : SdkState :=
  match Api.muteConnection st.connection with
  | (c, none) => { st with connection := c }
  | (c, some _) => { st with connection := c, errors := st.errors + 1 }

/-- `Sdk.unMuteApiConnection` (src/sdk/Sdk.ts:142-148): calls
`api.unMuteConnection`, forwarding a thrown error to `error$`. -/
def Sdk.unMuteApiConnection (st : SdkState) : SdkState :=
  match Api.unMuteConnection st.connection with
  | (c, none) => { st with connection := c }
  | (c, some _) => { st with connection := c, errors := st.errors + 1 }

/-- `Sdk.destroySecureAction` (src/sdk/Sdk.ts:278-280): its whole body is
`this.muteApiConnection()`; in particular it does not write
`this.secureAction`. -/
def Sdk.destroySecureAction (st : SdkState) : SdkState :=
  Sdk.muteApiConnection st

/-- The resolved action built in the `SignedSecureAction` handler for a
`CreateAccountDevice` challenge (src/sdk/Sdk.ts:451-465): it names the
reported signer as the device address and as the sender data. -/
def resolvedCreateAccountDeviceAction (networkVersion : Nat) (signer : String) :
    LinkerAction :=
  { type := LinkerActionsTypes.CreateAccountDevice,
    payload := LinkerActionPayload.createAccountDevice networkVersion signer,
    sender := some { type := LinkerActionSenderTypes.Device, data := some signer } }

/-- The `SignedSecureAction` case of the `event$` handler
(src/sdk/Sdk.ts:436-473).  `recover` embeds
`recoverAddressFromPersonalMessage` from `eth-utils`.  The `try` body returns
early when no challenge is outstanding or when the reported signer differs
from the recovered address, and emits the resolved action on a matching
`CreateAccountDevice` challenge; the `finally` clause runs
`destroySecureAction` on every one of those paths. -/
def Sdk.handleSignedSecureAction (recover : List Nat → List Nat → String)
    (st : SdkState) (signer : String) (signature : List Nat) : SdkState :=
  let afterTry :=
    match st.secureAction with
    | none => st
    | some sa =>
      if signer ≠ recover sa.hash signature then st
      else
        match sa.type with
        | LinkerActionsTypes.CreateAccountDevice =>
          { st with incomingActions := st.incomingActions ++
              [resolvedCreateAccountDeviceAction st.networkVersion signer] }
        | _ => st
  Sdk.destroySecureAction afterTry

/-- The `ConnectionMuted` case of the `event$` handler (src/sdk/Sdk.ts:396-398)
composed with the `muted$` subscription (src/sdk/Sdk.ts:367-376): the muted
flag is set and, the emission being `true`, the subscription clears the
outstanding challenge slot. -/
def Sdk.onConnectionMuted (st : SdkState) : SdkState :=
  { st with connection := { st.connection with muted := true }, secureAction := none }

/-- The `ConnectionUnMuted` case of the `event$` handler
(src/sdk/Sdk.ts:400-402): the muted flag is cleared; the `muted$` subscription
filters `false` emissions out, so the slot is untouched. -/
def Sdk.onConnectionUnMuted (st : SdkState) : SdkState :=
  { st with connection := { st.connection with muted := false } }

/-- Modelled from the spec: `randomBytes(n)` (node `crypto`) returns `n`
random bytes; the model draws them deterministically from a seed. -/
def randomBytes (seed n : Nat) : List Nat :=
  (List.range n).map (fun i => (seed + i) % 256)

/-- Modelled from the spec: `Linker.buildActionUrl` (`src/linker`, not under
`src/`) renders an action as a shareable URL whose information content is the
action with the requested sender role attached; the model returns that
action. -/
def Linker.buildActionUrl (action : LinkerAction)
    (senderType : LinkerActionSenderTypes) : LinkerAction :=
  { action with sender := some { type := senderType, data := none } }

/-- `Sdk.createSecureActionUrl` (src/sdk/Sdk.ts:254-273): unmutes the
connection, draws a 16-byte nonce, stores `{type, hash}` as the outstanding
challenge, and builds a `Secure` link action carrying the network version and
the nonce with sender role `Device`. -/
def Sdk.createSecureActionUrl (st : SdkState) (ty : LinkerActionsTypes)
    (seed : Nat) : SdkState × LinkerAction :=
  let st1 := Sdk.unMuteApiConnection st
  let hash := randomBytes seed 16
  let st2 := { st1 with secureAction := some { type := ty, hash := hash } }
  (st2, Linker.buildActionUrl
    { type := LinkerActionsTypes.Secure,
      payload := LinkerActionPayload.secure st.networkVersion hash,
      sender := none }
    LinkerActionSenderTypes.Device)

/-- Api options (`IApiOptions`): connection coordinates plus the `manualAuth`
flag and the optional `reconnectTimeout`, the fields read by
`src/api/ApiSession.ts`. -/
structure ApiOptions where
  host : String
  port : Option Nat
  ssl : Bool
  manualAuth : Bool
  reconnectTimeout : Option Nat
  deriving DecidableEq, Repr

/-- `Api.buildEndpoint` (src/api/ApiSession.ts:138-147): `null` without
options, otherwise `protocol[s]://host[:port]` with `localhost` standing in
for an empty host. -/
def Api.buildEndpoint (protocol : String) (options : Option ApiOptions) :
    Option String :=
  options.map (fun o =>
    protocol ++ (if o.ssl then "s" else "") ++ "://"
      ++ (if o.host = "" then "localhost" else o.host)
      ++ (match o.port with
          | some p => ":" ++ toString p
          | none => ""))

/-- The endpoint pair kept in `Api.endpoints`. -/
structure Endpoints where
  http : Option String
  ws : Option String
  deriving DecidableEq, Repr

/-- The `options$` subscription body computing the endpoints
(src/api/ApiSession.ts:187-196). -/
def computeEndpoints (options : Option ApiOptions) : Endpoints :=
  { ws := Api.buildEndpoint "ws" options, http := Api.buildEndpoint "http" options }

/-- The state of one `Api` instance: the current options and device address
(the levels feeding the auto-auth rule), the derived endpoints, the session
attributes plus the log of all session transitions taken, the connection
state, the set of armed reconnect timers held by the runtime alongside the
stored interval handle (`Api.reconnectInterval`), a fresh-handle counter, and
the errors emitted on `error$`. -/
structure ApiState where
  options : Option ApiOptions
  deviceAddress : Option String
  endpoints : Endpoints
  session : SessionAttributes
  sessionLog : List SessionAttributes
  connectionState : ApiConnectionState
  activeTimers : List Nat
  reconnectInterval : Option Nat
  nextTimerId : Nat
  errorChannel : List ApiError
  deriving DecidableEq, Repr

/-- A session transition on the `Api` state, recorded in the log. -/
def ApiState.setSession (st : ApiState) (s : SessionAttributes) : ApiState :=
  { st with session := s, sessionLog := st.sessionLog ++ [s] }

/-- The `clearInterval(this.reconnectInterval)` steps
(src/api/ApiSession.ts:542-544 and 578-580): the armed timer is cancelled;
the stored handle is not nulled, which is harmless because handles are never
reused. -/
def Api.clearReconnectTimer (st : ApiState) : ApiState :=
  match st.reconnectInterval with
  | none => st
  | some id => { st with activeTimers := st.activeTimers.erase id }

/-- The `setInterval` step of `openConnection`
(src/api/ApiSession.ts:563-574): a fresh timer is armed and its handle
stored. -/
def Api.armReconnectTimer (st : ApiState) : ApiState :=
  { st with activeTimers := st.nextTimerId :: st.activeTimers,
            reconnectInterval := some st.nextTimerId,
            nextTimerId := st.nextTimerId + 1 }

/-- `Api.openConnection` (src/api/ApiSession.ts:541-575): cancel any armed
timer, throw `errApiUnknownWsEndpoint` without a ws endpoint, return when the
session is not verified, otherwise open the connection (modelled from the
spec: `connection.open` moves the channel to `Connecting`) and, when a
`reconnectTimeout` is configured, arm the reconnect timer.  The returned pair
is the state at exit and the error thrown, if any. -/
def Api.openConnection (st : ApiState) : ApiState × Option ApiError :=
  let st := Api.clearReconnectTimer st
  if st.endpoints.ws = none then
    (st, some ApiError.UnknownWsEndpoint)
  else if st.session.state ≠ ApiSessionState.Verified then
    (st, none)
  else
    let st := { st with connectionState := ApiConnectionState.Connecting }
    match st.options.bind (fun o => o.reconnectTimeout) with
    | some _ => (Api.armReconnectTimer st, none)
    | none => (st, none)

/-- `Api.closeConnection` (src/api/ApiSession.ts:577-583): cancel any armed
timer and close the connection silently (modelled from the spec:
`connection.close` moves the channel to `Closed`). -/
def Api.closeConnection (st : ApiState) : ApiState :=
  let st := Api.clearReconnectTimer st
  { st with connectionState := ApiConnectionState.Closed }

/-- `Api.destroySession` (src/api/ApiSession.ts:265-268): destroy the session
and close the connection. -/
def Api.destroySession (st : ApiState) : ApiState :=
  Api.closeConnection (st.setSession ApiSession.setAsDestroyed)

/-- The outcomes of the three I/O steps of one `createSession` attempt:
`hashResult` is the `data` of `POST /session` (`none` for a transport failure
or null data, which makes the destructuring throw), `signResult` is the
signer/signature pair or a signing rejection, `verifyResult` is the `data` of
`PUT /session`. -/
structure SessionCallOutcomes where
  hashResult : Option (List Nat)
  signResult : Option (String × List Nat)
  verifyResult : Option String
  deriving DecidableEq, Repr

/-- `Api.createSession` (src/api/ApiSession.ts:242-260): transition to
`Verifying` with no token; run hash → sign → verify, any failure being caught
and turned into a `Destroyed` transition (`call` also throws
`errApiUnknownHttpEndpoint` when the http endpoint is missing, equally
caught); transition to `Verified` with the received token on success; then
call `openConnection` regardless.  The returned pair is the final state and
the error `createSession` itself throws, which can only come from
`openConnection`. -/
def Api.createSession (o : SessionCallOutcomes) (st : ApiState) :
    ApiState × Option ApiError :=
  let st := st.setSession (ApiSession.setAsVerifying none)
  let st :=
    if st.endpoints.http = none then
      st.setSession ApiSession.setAsDestroyed
    else
      match o.hashResult with
      | none => st.setSession ApiSession.setAsDestroyed
      | some _ =>
        match o.signResult with
        | none => st.setSession ApiSession.setAsDestroyed
        | some _ =>
          match o.verifyResult with
          | none => st.setSession ApiSession.setAsDestroyed
          | some token => st.setSession (ApiSession.setAsVerified (some token))
  Api.openConnection st

/-- `this.error$.wrapAsync(() => this.createSession())`
(src/api/ApiSession.ts:217): an error rejecting out of `createSession` is
emitted on `error$`. -/
def Api.createSessionWrapped (o : SessionCallOutcomes) (st : ApiState) : ApiState :=
  match Api.createSession o st with
  | (st', none) => st'
  | (st', some e) => { st' with errorChannel := st'.errorChannel ++ [e] }

/-- The auto-auth condition (src/api/ApiSession.ts:209-213):
`this.options && !!device.address && !this.options.manualAuth`.  An empty
address string is falsy and is modelled as `none`. -/
def canAuth : Option ApiOptions → Option String → Bool
  | none, _ => false
  | some o, address => address.isSome && !o.manualAuth

/-- One emission feeding the `Api` constructor subscriptions
(src/api/ApiSession.ts:187-221): a configuration change or a device-address
change, together with the I/O outcomes of the `createSession` attempt it may
start. -/
inductive AuthTrigger
  | optionsChange (options : Option ApiOptions) (o : SessionCallOutcomes)
  | addressChange (address : Option String) (o : SessionCallOutcomes)

/-- Applying one emission: an options change first runs the `options$`
subscription (recompute endpoints, destroy the session), then — like an
address change — the merged auto-auth subscription runs `createSession` when
`canAuth` holds and `destroySession` otherwise. -/
def Api.applyTrigger (st : ApiState) : AuthTrigger → ApiState
  | AuthTrigger.optionsChange opts o =>
    let st := { st with options := opts, endpoints := computeEndpoints opts }
    let st := st.setSession ApiSession.setAsDestroyed
    if canAuth st.options st.deviceAddress then Api.createSessionWrapped o st
    else Api.destroySession st
  | AuthTrigger.addressChange a o =>
    let st := { st with deviceAddress := a }
    if canAuth st.options st.deviceAddress then Api.createSessionWrapped o st
    else Api.destroySession st

/-- Every operation that can touch the reconnect timers or the connection:
the two subscription triggers, a direct `createSession`/`destroySession`
call, the private `openConnection`/`closeConnection`, one reconnect-interval
tick (src/api/ApiSession.ts:565-571: reopen only while `Closed`; it never
arms timers), and the asynchronous settling of a pending `connection.open`
(modelled from the spec). -/
inductive ApiOp
  | trigger (t : AuthTrigger)
  | createSess (o : SessionCallOutcomes)
  | destroySess
  | openConn
  | closeConn
  | tick
  | connSettled (ok : Bool)

/-- Applying one operation to the `Api` state. -/
def Api.applyOp (st : ApiState) : ApiOp → ApiState
  | ApiOp.trigger t => Api.applyTrigger st t
  | ApiOp.createSess o => Api.createSessionWrapped o st
  | ApiOp.destroySess => Api.destroySession st
  | ApiOp.openConn => (Api.openConnection st).1
  | ApiOp.closeConn => Api.closeConnection st
  | ApiOp.tick =>
    if st.activeTimers ≠ [] ∧ st.connectionState = ApiConnectionState.Closed then
      { st with connectionState := ApiConnectionState.Connecting }
    else st
  | ApiOp.connSettled ok =>
    if st.connectionState = ApiConnectionState.Connecting then
      { st with connectionState :=
          if ok then ApiConnectionState.Opened else ApiConnectionState.Closed }
    else st

/-- Running a sequence of operations. -/
def Api.runOps (st : ApiState) (ops : List ApiOp) : ApiState :=
  ops.foldl Api.applyOp st

/-- The `Api` state at construction (src/api/ApiSession.ts:182-222, before
any options emission): no options or address, a destroyed session, a closed
connection, no timers. -/
def initialApiState : ApiState :=
  { options := none, deviceAddress := none,
    endpoints := { http := none, ws := none },
    session := ApiSession.prepareAttributes none, sessionLog := [],
    connectionState := ApiConnectionState.Closed,
    activeTimers := [], reconnectInterval := none, nextTimerId := 0,
    errorChannel := [] }

/-- The timer bookkeeping invariant: the armed timers are at most the one the
stored handle names, and all handed-out handles are below the fresh
counter. -/
def timerWellFormed (st : ApiState) : Prop :=
  (match st.reconnectInterval with
   | none => st.activeTimers = []
   | some id => (st.activeTimers = [] ∨ st.activeTimers = [id]) ∧ id < st.nextTimerId)

/-- The number of `Verifying` transitions recorded in a session log: each
`createSession` run starts with exactly one, so this counts the session
establishments initiated. -/
def verifyingCount (log : List SessionAttributes) : Nat :=
  log.countP (fun s => decide (s.state = ApiSessionState.Verifying))

/-- The configuration level after an emission: an options change carries the
new level, an address change leaves it as it was. -/
def postOptions (st : ApiState) : AuthTrigger → Option ApiOptions
  | AuthTrigger.optionsChange o _ => o
  | AuthTrigger.addressChange _ _ => st.options

/-- The device-address level after an emission. -/
def postAddress (st : ApiState) : AuthTrigger → Option String
  | AuthTrigger.optionsChange _ _ => st.deviceAddress
  | AuthTrigger.addressChange a _ => a

/-- The `AccountUpdated` case of the `event$` handler (src/sdk/Sdk.ts:404-416):
when the event names the locally tracked account, both the account and the
account-device attributes are re-fetched and both local copies are replaced
only when both fetches return non-null data.  The fetch results are the
`data || null` values of `getAccount` and `getAccountDevice` (`none` for a
transport failure or null data); the result is the pair of local copies after
the handler. -/
def Sdk.handleAccountUpdated {α β : Type} (localEnsName : Option String)
    (localAccount : Option α) (localDevice : Option β) (evEnsName : String)
    (fetchAccount : Option α) (fetchDevice : Option β) : Option α × Option β :=
  if localEnsName = some evEnsName then
    match fetchAccount, fetchDevice with
    | some a, some d => (some a, some d)
    | _, _ => (localAccount, localDevice)
  else
    (localAccount, localDevice)

/-! Theorems. -/

/-- The invariant is preserved by any run whose `setAsVerifying` calls all pass
the default `null` token. -/
theorem sessionInvariant_runSessionOps (ops : List SessionOp) (s : SessionAttributes)
    (hs : sessionInvariant s)
    (hv : ∀ t, SessionOp.setAsVerifying t ∈ ops → t = none) :
    sessionInvariant (runSessionOps s ops) := by
  induction ops generalizing s with
  | nil => exact hs
  | cons op rest ih =>
    have hrest : ∀ t, SessionOp.setAsVerifying t ∈ rest → t = none := by
      intro t ht
      exact hv t (List.mem_cons_of_mem op ht)
    have hstep : sessionInvariant (applySessionOp s op) := by
      cases op with
      | setAsVerifying t =>
        have : t = none := hv t (List.mem_cons_self _ _)
        subst this
        intro h
        simp [applySessionOp, ApiSession.setAsVerifying, ApiSession.prepareAttributes] at h
      | setAsVerified t =>
        intro _
        rfl
      | setAsDestroyed =>
        intro h
        simp [applySessionOp, ApiSession.setAsDestroyed, ApiSession.prepareAttributes] at h
    exact ih (applySessionOp s op) hstep hrest

/-- C1 counterexample: calling `setAsVerifying` with a non-null token stores
that token while the state becomes `Verifying`, so the session invariant
`token != null ⇒ state == Verified` fails after the one-operation sequence
`[setAsVerifying "stale"]`. -/
theorem c1_counterexample :
    ¬ sessionInvariant (runSessionOps (ApiSession.prepareAttributes none)
      [SessionOp.setAsVerifying (some "stale")]) := by
  decide

/-- C1 (amended): for every sequence of transition operations in which
`setAsVerifying` is always called with its default `null` token — as the only
call site, `Api.createSession`, does — the invariant `token != null ⇒
state == Verified` holds in every reachable state; moreover applying
`setAsVerifying` with the `null` token or `setAsDestroyed` always leaves the
token `null`. -/
theorem c1_theorem (ops : List SessionOp)
    (hv : ∀ t, SessionOp.setAsVerifying t ∈ ops → t = none) :
    (∀ n : Nat,
      sessionInvariant (runSessionOps (ApiSession.prepareAttributes none) (ops.take n)))
    ∧ (∀ s : SessionAttributes,
        (applySessionOp s (SessionOp.setAsVerifying none)).token = none)
    ∧ (∀ s : SessionAttributes,
        (applySessionOp s SessionOp.setAsDestroyed).token = none) := by
  refine ⟨?_, fun _ => rfl, fun _ => rfl⟩
  intro n
  apply sessionInvariant_runSessionOps
  · intro h
    simp [ApiSession.prepareAttributes] at h
  · intro t ht
    exact hv t (List.take_subset n ops ht)

/-- Reading a length-prefixed field recovers the field and the rest. -/
theorem readField_encodeField (f rest : List Nat) :
    readField (encodeField f ++ rest) = some (f, rest) := by
  simp [readField, encodeField, List.take_left, List.drop_left]

/-- C10: for every event in the fixed event-kind set — no payload, scalar
payloads, and structured payloads of byte sequences — decoding the encoding
yields the original event. -/
theorem c10_theorem (e : ApiEvent) :
    decodeApiEvent (encodeApiEvent e) = some e := by
  have hone : ∀ f : List Nat, readField (encodeField f) = some (f, []) := by
    intro f
    have := readField_encodeField f []
    simpa using this
  cases e <;>
    simp [encodeApiEvent, decodeApiEvent, decodeNoField, decodeOneField,
      decodeTwoFields, readField_encodeField, hone]

/-- C8: every outbound event send (`sendEvent`, hence `muteConnection`,
`unMuteConnection` and `signSecureAction`) fails with
`InvalidConnectionState` and leaves the channel unchanged when the connection
is not `Opened`, and appends the encoded frame when it is `Opened`. -/
theorem c8_theorem (c : ConnectionModel) (e : ApiEvent) :
    (c.state ≠ ApiConnectionState.Opened →
      Api.sendEvent c e = (c, some ApiError.InvalidConnectionState)) ∧
    (c.state = ApiConnectionState.Opened →
      Api.sendEvent c e =
        ({ c with sentFrames := c.sentFrames ++ [encodeApiEvent e] }, none)) := by
  constructor <;> intro h <;>
    simp [Api.sendEvent, ConnectionModel.opened, h]

/-- C8 witness: the theorem applied on a closed channel and on an opened
channel. -/
theorem c8_witness :
    Api.sendEvent ⟨ApiConnectionState.Closed, false, []⟩ ApiEvent.muteConnection
      = (⟨ApiConnectionState.Closed, false, []⟩, some ApiError.InvalidConnectionState)
    ∧ Api.sendEvent ⟨ApiConnectionState.Opened, false, []⟩ ApiEvent.muteConnection
      = (⟨ApiConnectionState.Opened, false, [encodeApiEvent ApiEvent.muteConnection]⟩, none) :=
  ⟨(c8_theorem ⟨ApiConnectionState.Closed, false, []⟩ ApiEvent.muteConnection).1 (by decide),
   (c8_theorem ⟨ApiConnectionState.Opened, false, []⟩ ApiEvent.muteConnection).2 rfl⟩

/-- `destroySecureAction` only talks to the connection: the challenge slot and
the emitted actions are untouched. -/
theorem destroySecureAction_preserves (st : SdkState) :
    (Sdk.destroySecureAction st).secureAction = st.secureAction
    ∧ (Sdk.destroySecureAction st).incomingActions = st.incomingActions := by
  rcases hc : Api.muteConnection st.connection with ⟨c, _ | e⟩ <;>
    simp [Sdk.destroySecureAction, Sdk.muteApiConnection, hc]

/-- C2 counterexample: with no outstanding challenge, the signed-secure-action
event is not a no-op — the `finally` clause still runs `destroySecureAction`,
which sends a mute-connection frame on the opened channel, changing the
state. -/
theorem c2_counterexample :
    Sdk.handleSignedSecureAction (fun _ _ => "0xA")
      { secureAction := none,
        connection := ⟨ApiConnectionState.Opened, false, []⟩,
        networkVersion := 1, incomingActions := [], errors := 0 } "0xA" []
    ≠ { secureAction := none,
        connection := ⟨ApiConnectionState.Opened, false, []⟩,
        networkVersion := 1, incomingActions := [], errors := 0 } := by
  decide

/-- C2 (amended): the signed-secure-action handler always runs
`destroySecureAction` (a mute-connection request) via its `finally` clause,
and `destroySecureAction` never touches the challenge slot or the emitted
actions.  With no outstanding challenge no `LinkAction` is emitted and the
slot stays empty; with an outstanding `CreateAccountDevice` challenge and a
signature whose recovered address equals the reported signer, a `LinkAction`
naming the signer as device address and as sender data is emitted while the
slot itself is not cleared by the handler; when the recovered address differs
from the reported signer, no `LinkAction` is emitted and the slot is
unchanged. -/
theorem c2_theorem (recover : List Nat → List Nat → String) (st : SdkState)
    (signer : String) (signature : List Nat) :
    (st.secureAction = none →
      Sdk.handleSignedSecureAction recover st signer signature
        = Sdk.destroySecureAction st)
    ∧ (∀ h : List Nat,
        st.secureAction = some ⟨LinkerActionsTypes.CreateAccountDevice, h⟩ →
        recover h signature = signer →
        Sdk.handleSignedSecureAction recover st signer signature
          = Sdk.destroySecureAction
              { st with incomingActions := st.incomingActions ++
                  [resolvedCreateAccountDeviceAction st.networkVersion signer] })
    ∧ (∀ sa : SecureAction,
        st.secureAction = some sa →
        recover sa.hash signature ≠ signer →
        Sdk.handleSignedSecureAction recover st signer signature
          = Sdk.destroySecureAction st)
    ∧ (∀ st' : SdkState,
        (Sdk.destroySecureAction st').secureAction = st'.secureAction
        ∧ (Sdk.destroySecureAction st').incomingActions = st'.incomingActions) := by
  refine ⟨?_, ?_, ?_, ?_⟩
  · intro hnone
    simp [Sdk.handleSignedSecureAction, hnone]
  · intro h hsa hrec
    simp [Sdk.handleSignedSecureAction, hsa, hrec]
  · intro sa hsa hrec
    have : signer ≠ recover sa.hash signature := fun he => hrec he.symm
    simp [Sdk.handleSignedSecureAction, hsa, this]
  · intro st'
    exact destroySecureAction_preserves st'

/-- C2 witness: the amended theorem applied to a state holding a
`CreateAccountDevice` challenge over the nonce `[9]` and a signature
recovering to the reported signer. -/
theorem c2_witness :
    Sdk.handleSignedSecureAction (fun h _ => if h = [9] then "0xA" else "0xB")
      { secureAction := some ⟨LinkerActionsTypes.CreateAccountDevice, [9]⟩,
        connection := ⟨ApiConnectionState.Opened, false, []⟩,
        networkVersion := 1, incomingActions := [], errors := 0 } "0xA" [7]
    = Sdk.destroySecureAction
        { secureAction := some ⟨LinkerActionsTypes.CreateAccountDevice, [9]⟩,
          connection := ⟨ApiConnectionState.Opened, false, []⟩,
          networkVersion := 1,
          incomingActions := [] ++ [resolvedCreateAccountDeviceAction 1 "0xA"],
          errors := 0 } :=
  ((c2_theorem (fun h _ => if h = [9] then "0xA" else "0xB")
      { secureAction := some ⟨LinkerActionsTypes.CreateAccountDevice, [9]⟩,
        connection := ⟨ApiConnectionState.Opened, false, []⟩,
        networkVersion := 1, incomingActions := [], errors := 0 } "0xA" [7]).2.1
    [9] rfl (by decide))

/-- C4 counterexample: an explicit cancel (`destroySecureAction`) does not
clear the outstanding challenge slot — it only sends a mute-connection
request. -/
theorem c4_counterexample :
    (Sdk.destroySecureAction
      { secureAction := some ⟨LinkerActionsTypes.CreateAccountDevice, [9]⟩,
        connection := ⟨ApiConnectionState.Opened, false, []⟩,
        networkVersion := 1, incomingActions := [], errors := 0 }).secureAction
    ≠ none := by
  decide

/-- C4 (amended): whenever the connection reports `muted == true` the
outstanding challenge slot is cleared and a subsequent signed response emits
no `LinkAction`; an explicit cancel (`destroySecureAction`) does not itself
clear the slot — it only requests a connection mute — and the slot becomes
empty once the resulting muted notification arrives. -/
theorem c4_theorem (st : SdkState) :
    ((Sdk.onConnectionMuted st).secureAction = none)
    ∧ (∀ (recover : List Nat → List Nat → String) (signer : String)
        (signature : List Nat),
        (Sdk.handleSignedSecureAction recover (Sdk.onConnectionMuted st)
          signer signature).incomingActions = st.incomingActions)
    ∧ ((Sdk.destroySecureAction st).secureAction = st.secureAction)
    ∧ ((Sdk.onConnectionMuted (Sdk.destroySecureAction st)).secureAction = none) := by
  refine ⟨rfl, ?_, (destroySecureAction_preserves st).1, rfl⟩
  intro recover signer signature
  have hstep :
      Sdk.handleSignedSecureAction recover (Sdk.onConnectionMuted st) signer signature
        = Sdk.destroySecureAction (Sdk.onConnectionMuted st) := by
    simp [Sdk.handleSignedSecureAction, Sdk.onConnectionMuted]
  rw [hstep]
  exact (destroySecureAction_preserves (Sdk.onConnectionMuted st)).2

/-- C6: `createSecureActionUrl` stores a 16-byte nonce with the requested
action type as the single outstanding challenge (replacing any previous one),
sends an unmute-connection frame when the channel is opened, and returns a
`Secure` link action carrying the network version and the nonce with sender
role `Device`; after a second challenge is created, a late signed response
matching the first nonce emits no `LinkAction` and leaves the second
challenge in place. -/
theorem c6_theorem (st : SdkState) (ty : LinkerActionsTypes) (seed : Nat) :
    ((Sdk.createSecureActionUrl st ty seed).1.secureAction
      = some ⟨ty, randomBytes seed 16⟩)
    ∧ ((randomBytes seed 16).length = 16)
    ∧ (st.connection.state = ApiConnectionState.Opened →
        (Sdk.createSecureActionUrl st ty seed).1.connection.sentFrames
          = st.connection.sentFrames ++ [encodeApiEvent ApiEvent.unMuteConnection])
    ∧ ((Sdk.createSecureActionUrl st ty seed).2.payload
        = LinkerActionPayload.secure st.networkVersion (randomBytes seed 16))
    ∧ ((Sdk.createSecureActionUrl st ty seed).2.sender
        = some { type := LinkerActionSenderTypes.Device, data := none })
    ∧ (∀ (ty2 : LinkerActionsTypes) (seed2 : Nat) (signer : String)
        (signature : List Nat) (recover : List Nat → List Nat → String),
        recover (randomBytes seed 16) signature = signer →
        recover (randomBytes seed2 16) signature ≠ signer →
        ((Sdk.handleSignedSecureAction recover
            (Sdk.createSecureActionUrl (Sdk.createSecureActionUrl st ty seed).1
              ty2 seed2).1 signer signature).secureAction
          = some ⟨ty2, randomBytes seed2 16⟩)
        ∧ ((Sdk.handleSignedSecureAction recover
            (Sdk.createSecureActionUrl (Sdk.createSecureActionUrl st ty seed).1
              ty2 seed2).1 signer signature).incomingActions
          = (Sdk.createSecureActionUrl (Sdk.createSecureActionUrl st ty seed).1
              ty2 seed2).1.incomingActions)) := by
  refine ⟨rfl, by simp [randomBytes], ?_, rfl, rfl, ?_⟩
  · intro hop
    simp [Sdk.createSecureActionUrl, Sdk.unMuteApiConnection,
      Api.unMuteConnection, Api.sendEvent, ConnectionModel.opened, hop]
  · intro ty2 seed2 signer signature recover _ hrec2
    set st2 := (Sdk.createSecureActionUrl (Sdk.createSecureActionUrl st ty seed).1
      ty2 seed2).1 with hst2
    have hslot : st2.secureAction = some ⟨ty2, randomBytes seed2 16⟩ := rfl
    have hne : signer ≠ recover (randomBytes seed2 16) signature :=
      fun he => hrec2 he.symm
    have hstep :
        Sdk.handleSignedSecureAction recover st2 signer signature
          = Sdk.destroySecureAction st2 := by
      simp [Sdk.handleSignedSecureAction, hslot, hne]
    rw [hstep]
    exact ⟨((destroySecureAction_preserves st2).1).trans hslot,
      (destroySecureAction_preserves st2).2⟩

/-- C6 witness: the theorem applied on an opened channel with two successive
challenges and a recovery function matching only the first nonce. -/
theorem c6_witness :
    ((Sdk.handleSignedSecureAction
        (fun h _ => if h = randomBytes 0 16 then "0xA" else "0xB")
        (Sdk.createSecureActionUrl
          (Sdk.createSecureActionUrl
            { secureAction := none,
              connection := ⟨ApiConnectionState.Opened, false, []⟩,
              networkVersion := 1, incomingActions := [], errors := 0 }
            LinkerActionsTypes.CreateAccountDevice 0).1
          LinkerActionsTypes.CreateAccountDevice 7).1 "0xA" [5]).secureAction
      = some ⟨LinkerActionsTypes.CreateAccountDevice, randomBytes 7 16⟩)
    ∧ ((Sdk.handleSignedSecureAction
        (fun h _ => if h = randomBytes 0 16 then "0xA" else "0xB")
        (Sdk.createSecureActionUrl
          (Sdk.createSecureActionUrl
            { secureAction := none,
              connection := ⟨ApiConnectionState.Opened, false, []⟩,
              networkVersion := 1, incomingActions := [], errors := 0 }
            LinkerActionsTypes.CreateAccountDevice 0).1
          LinkerActionsTypes.CreateAccountDevice 7).1 "0xA" [5]).incomingActions
      = (Sdk.createSecureActionUrl
          (Sdk.createSecureActionUrl
            { secureAction := none,
              connection := ⟨ApiConnectionState.Opened, false, []⟩,
              networkVersion := 1, incomingActions := [], errors := 0 }
            LinkerActionsTypes.CreateAccountDevice 0).1
          LinkerActionsTypes.CreateAccountDevice 7).1.incomingActions) :=
  (c6_theorem
    { secureAction := none,
      connection := ⟨ApiConnectionState.Opened, false, []⟩,
      networkVersion := 1, incomingActions := [], errors := 0 }
    LinkerActionsTypes.CreateAccountDevice 0).2.2.2.2.2
    LinkerActionsTypes.CreateAccountDevice 7 "0xA" [5]
    (fun h _ => if h = randomBytes 0 16 then "0xA" else "0xB")
    (by decide) (by decide)

/-- Cancelling the reconnect timer touches no field other than
`activeTimers`. -/
theorem clearReconnectTimer_proj (s : ApiState) :
    (Api.clearReconnectTimer s).endpoints = s.endpoints
    ∧ (Api.clearReconnectTimer s).session = s.session
    ∧ (Api.clearReconnectTimer s).sessionLog = s.sessionLog
    ∧ (Api.clearReconnectTimer s).errorChannel = s.errorChannel
    ∧ (Api.clearReconnectTimer s).connectionState = s.connectionState
    ∧ (Api.clearReconnectTimer s).options = s.options
    ∧ (Api.clearReconnectTimer s).deviceAddress = s.deviceAddress
    ∧ (Api.clearReconnectTimer s).reconnectInterval = s.reconnectInterval
    ∧ (Api.clearReconnectTimer s).nextTimerId = s.nextTimerId := by
  cases h : s.reconnectInterval <;> simp [Api.clearReconnectTimer, h]

/-- Opening the connection touches no field other than the timers and the
connection state. -/
theorem openConnection_proj (s : ApiState) :
    (Api.openConnection s).1.endpoints = s.endpoints
    ∧ (Api.openConnection s).1.session = s.session
    ∧ (Api.openConnection s).1.sessionLog = s.sessionLog
    ∧ (Api.openConnection s).1.errorChannel = s.errorChannel
    ∧ (Api.openConnection s).1.options = s.options
    ∧ (Api.openConnection s).1.deviceAddress = s.deviceAddress := by
  obtain ⟨h1, h2, h3, h4, _h5, h6, h7, _⟩ := clearReconnectTimer_proj s
  by_cases hws : s.endpoints.ws = none
  · simp [Api.openConnection, h1, h2, h3, h4, h6, h7, hws]
  · by_cases hv : s.session.state = ApiSessionState.Verified
    · cases hrt : (s.options.bind fun o => o.reconnectTimeout) <;>
        simp [Api.openConnection, h1, h2, h3, h4, h6, h7, hws, hv, hrt,
          Api.armReconnectTimer]
    · simp [Api.openConnection, h1, h2, h3, h4, h6, h7, hws, hv]

/-- On any failure of the hash, sign or verify step, `createSession` takes
the `Verifying` transition, the `Destroyed` transition, and then opens the
connection. -/
theorem createSession_fail (o : SessionCallOutcomes) (st : ApiState)
    (hfail : o.hashResult = none ∨ o.signResult = none ∨ o.verifyResult = none) :
    Api.createSession o st =
      Api.openConnection
        ((st.setSession (ApiSession.setAsVerifying none)).setSession
          ApiSession.setAsDestroyed) := by
  unfold Api.createSession
  rcases hfail with h | h | h
  · cases hh : st.endpoints.http <;> simp [ApiState.setSession, h, hh]
  · cases hh : st.endpoints.http <;>
      cases h1 : o.hashResult <;> simp [ApiState.setSession, h, hh, h1]
  · cases hh : st.endpoints.http <;>
      cases h1 : o.hashResult <;>
        cases h2 : o.signResult <;> simp [ApiState.setSession, h, hh, h1, h2]

/-- When the ws endpoint is configured and the session is not verified,
`openConnection` returns after cancelling the timer, without touching the
connection and without throwing. -/
theorem openConnection_notVerified (s : ApiState)
    (hws : s.endpoints.ws ≠ none)
    (hnv : s.session.state ≠ ApiSessionState.Verified) :
    Api.openConnection s = (Api.clearReconnectTimer s, none) := by
  have hc := clearReconnectTimer_proj s
  unfold Api.openConnection
  rw [if_neg (by rw [hc.1]; exact hws), if_pos (by rw [hc.2.1]; exact hnv)]

/-- C3 counterexample: a `createSession` whose verify step fails emits no
error on `error$` — the internal catch swallows it — contradicting the
claimed single error-channel emission. -/
theorem c3_counterexample :
    (Api.createSessionWrapped
      { hashResult := some [1], signResult := some ("0xA", [2]),
        verifyResult := none }
      { options := some ⟨"h", none, false, false, none⟩,
        deviceAddress := some "0xA",
        endpoints := { http := some "http://h", ws := some "ws://h" },
        session := ApiSession.prepareAttributes none, sessionLog := [],
        connectionState := ApiConnectionState.Closed,
        activeTimers := [], reconnectInterval := none, nextTimerId := 0,
        errorChannel := [] }).errorChannel.length ≠ 1 := by
  decide

/-- C3 (amended): when the hash fetch, the signing step or the verification
call fails and the ws endpoint is configured, the session ends `Destroyed`
with a null token (never stuck in `Verifying`), the connection remains
`Closed`, `createSession` throws nothing out of the orchestrator — and no
error at all is emitted on the process-wide error channel, the internal catch
having swallowed the failure. -/
theorem c3_theorem (o : SessionCallOutcomes) (st : ApiState)
    (hws : st.endpoints.ws ≠ none)
    (hfail : o.hashResult = none ∨ o.signResult = none ∨ o.verifyResult = none)
    (hconn : st.connectionState = ApiConnectionState.Closed) :
    ((Api.createSessionWrapped o st).session.state = ApiSessionState.Destroyed)
    ∧ ((Api.createSessionWrapped o st).session.token = none)
    ∧ ((Api.createSessionWrapped o st).connectionState = ApiConnectionState.Closed)
    ∧ ((Api.createSession o st).2 = none)
    ∧ ((Api.createSessionWrapped o st).errorChannel = st.errorChannel) := by
  have hcs := createSession_fail o st hfail
  have hopen := openConnection_notVerified
    ((st.setSession (ApiSession.setAsVerifying none)).setSession
      ApiSession.setAsDestroyed)
    (by simpa [ApiState.setSession] using hws)
    (by simp [ApiState.setSession, ApiSession.setAsDestroyed,
      ApiSession.prepareAttributes])
  have hclear := clearReconnectTimer_proj
    ((st.setSession (ApiSession.setAsVerifying none)).setSession
      ApiSession.setAsDestroyed)
  have hwrapped : Api.createSessionWrapped o st
      = Api.clearReconnectTimer
          ((st.setSession (ApiSession.setAsVerifying none)).setSession
            ApiSession.setAsDestroyed) := by
    unfold Api.createSessionWrapped
    rw [hcs, hopen]
  refine ⟨?_, ?_, ?_, ?_, ?_⟩
  · rw [hwrapped, hclear.2.1]; rfl
  · rw [hwrapped, hclear.2.1]; rfl
  · rw [hwrapped, hclear.2.2.2.2.1]; exact hconn
  · rw [hcs, hopen]
  · rw [hwrapped, hclear.2.2.2.1]; rfl

/-- C3 witness: the amended theorem applied to a configured state whose
verify step fails. -/
theorem c3_witness :
    ((Api.createSessionWrapped
      { hashResult := some [1], signResult := some ("0xA", [2]),
        verifyResult := none }
      { options := some ⟨"h", none, false, false, none⟩,
        deviceAddress := some "0xA",
        endpoints := { http := some "http://h", ws := some "ws://h" },
        session := ApiSession.prepareAttributes none, sessionLog := [],
        connectionState := ApiConnectionState.Closed,
        activeTimers := [], reconnectInterval := none, nextTimerId := 0,
        errorChannel := [] }).session.state = ApiSessionState.Destroyed)
    ∧ ((Api.createSessionWrapped
      { hashResult := some [1], signResult := some ("0xA", [2]),
        verifyResult := none }
      { options := some ⟨"h", none, false, false, none⟩,
        deviceAddress := some "0xA",
        endpoints := { http := some "http://h", ws := some "ws://h" },
        session := ApiSession.prepareAttributes none, sessionLog := [],
        connectionState := ApiConnectionState.Closed,
        activeTimers := [], reconnectInterval := none, nextTimerId := 0,
        errorChannel := [] }).errorChannel = []) :=
  ⟨(c3_theorem
      { hashResult := some [1], signResult := some ("0xA", [2]),
        verifyResult := none }
      { options := some ⟨"h", none, false, false, none⟩,
        deviceAddress := some "0xA",
        endpoints := { http := some "http://h", ws := some "ws://h" },
        session := ApiSession.prepareAttributes none, sessionLog := [],
        connectionState := ApiConnectionState.Closed,
        activeTimers := [], reconnectInterval := none, nextTimerId := 0,
        errorChannel := [] }
      (by decide) (Or.inr (Or.inr rfl)) rfl).1,
   (c3_theorem
      { hashResult := some [1], signResult := some ("0xA", [2]),
        verifyResult := none }
      { options := some ⟨"h", none, false, false, none⟩,
        deviceAddress := some "0xA",
        endpoints := { http := some "http://h", ws := some "ws://h" },
        session := ApiSession.prepareAttributes none, sessionLog := [],
        connectionState := ApiConnectionState.Closed,
        activeTimers := [], reconnectInterval := none, nextTimerId := 0,
        errorChannel := [] }
      (by decide) (Or.inr (Or.inr rfl)) rfl).2.2.2.2⟩

/-- `error$.wrapAsync` only appends to the error channel. -/
theorem createSessionWrapped_proj (o : SessionCallOutcomes) (st : ApiState) :
    (Api.createSessionWrapped o st).sessionLog = (Api.createSession o st).1.sessionLog
    ∧ (Api.createSessionWrapped o st).session = (Api.createSession o st).1.session
    ∧ (Api.createSessionWrapped o st).connectionState
        = (Api.createSession o st).1.connectionState
    ∧ (Api.createSessionWrapped o st).activeTimers = (Api.createSession o st).1.activeTimers
    ∧ (Api.createSessionWrapped o st).reconnectInterval
        = (Api.createSession o st).1.reconnectInterval
    ∧ (Api.createSessionWrapped o st).nextTimerId = (Api.createSession o st).1.nextTimerId := by
  rcases h : Api.createSession o st with ⟨st', _ | e⟩ <;>
    simp [Api.createSessionWrapped, h]

/-- Every `createSession` run records exactly one `Verifying` transition. -/
theorem createSession_verifyingCount (o : SessionCallOutcomes) (st : ApiState) :
    verifyingCount (Api.createSession o st).1.sessionLog
      = verifyingCount st.sessionLog + 1 := by
  have hopen : ∀ s : ApiState, (Api.openConnection s).1.sessionLog = s.sessionLog :=
    fun s => (openConnection_proj s).2.2.1
  cases hh : st.endpoints.http <;>
    cases h1 : o.hashResult <;>
      cases h2 : o.signResult <;>
        cases h3 : o.verifyResult <;>
          simp [Api.createSession, ApiState.setSession, hh, h1, h2, h3, hopen,
            verifyingCount, List.countP_append, List.countP_cons, List.countP_nil,
            ApiSession.setAsVerifying, ApiSession.setAsDestroyed,
            ApiSession.setAsVerified, ApiSession.prepareAttributes]

/-- `destroySession` leaves a destroyed session with no token and a closed
connection. -/
theorem destroySession_proj (st : ApiState) :
    (Api.destroySession st).session.state = ApiSessionState.Destroyed
    ∧ (Api.destroySession st).session.token = none
    ∧ (Api.destroySession st).connectionState = ApiConnectionState.Closed := by
  have h : ∀ s : ApiState, (Api.clearReconnectTimer s).session = s.session :=
    fun s => (clearReconnectTimer_proj s).2.1
  refine ⟨?_, ?_, rfl⟩ <;>
    simp [Api.destroySession, Api.closeConnection, h, ApiState.setSession,
      ApiSession.setAsDestroyed, ApiSession.prepareAttributes]

/-- The merged subscription processes the emissions one by one: the state
after `n + 1` emissions is the reaction applied to the state after `n`. -/
theorem runOps_take_succ (st : ApiState) (ts : List AuthTrigger) (n : Nat)
    (hn : n < ts.length) :
    Api.runOps st ((ts.take (n + 1)).map ApiOp.trigger)
      = Api.applyTrigger (Api.runOps st ((ts.take n).map ApiOp.trigger))
          (ts.get ⟨n, hn⟩) := by
  induction ts generalizing st n with
  | nil => exact absurd hn (by simp)
  | cons t rest ih =>
    cases n with
    | zero => rfl
    | succ m =>
      have hm : m < rest.length := by simpa using hn
      simp only [List.take_succ_cons, List.map_cons, Api.runOps, List.foldl_cons,
        List.get_cons_succ]
      exact ih (Api.applyOp st (ApiOp.trigger t)) m hm

/-- C5: on every configuration-change or device-address-change emission the
auto-auth rule is re-evaluated against the current levels: when configuration
is present, the device has an address and manual-auth is not requested, a
session establishment (`createSession`, opening with its `Verifying`
transition) is initiated; otherwise the session is destroyed, ending
`Destroyed` with no token and a closed connection. -/
theorem c5_theorem (st : ApiState) (t : AuthTrigger) (ts : List AuthTrigger)
    (n : Nat) (hn : n < ts.length) :
    (canAuth (postOptions st t) (postAddress st t) = true →
      st.session.state ≠ ApiSessionState.Verified →
      verifyingCount (Api.applyTrigger st t).sessionLog
        = verifyingCount st.sessionLog + 1)
    ∧ (canAuth (postOptions st t) (postAddress st t) = false →
      (Api.applyTrigger st t).session.state = ApiSessionState.Destroyed
      ∧ (Api.applyTrigger st t).session.token = none
      ∧ (Api.applyTrigger st t).connectionState = ApiConnectionState.Closed)
    ∧ (Api.runOps st ((ts.take (n + 1)).map ApiOp.trigger)
        = Api.applyTrigger (Api.runOps st ((ts.take n).map ApiOp.trigger))
            (ts.get ⟨n, hn⟩)) := by
  refine ⟨?_, ?_, runOps_take_succ st ts n hn⟩
  · intro hca _
    cases t with
    | optionsChange opts o =>
      have hca' : canAuth opts st.deviceAddress = true := hca
      rw [show Api.applyTrigger st (AuthTrigger.optionsChange opts o)
          = Api.createSessionWrapped o
              (({ st with options := opts,
                          endpoints := computeEndpoints opts } : ApiState).setSession
                ApiSession.setAsDestroyed) by
        simp [Api.applyTrigger, ApiState.setSession, hca']]
      rw [(createSessionWrapped_proj _ _).1, createSession_verifyingCount]
      simp [ApiState.setSession, verifyingCount, List.countP_append,
        List.countP_cons, List.countP_nil, ApiSession.setAsDestroyed,
        ApiSession.prepareAttributes]
    | addressChange a o =>
      have hca' : canAuth st.options a = true := hca
      rw [show Api.applyTrigger st (AuthTrigger.addressChange a o)
          = Api.createSessionWrapped o ({ st with deviceAddress := a } : ApiState) by
        simp [Api.applyTrigger, hca']]
      rw [(createSessionWrapped_proj _ _).1, createSession_verifyingCount]
  · intro hca
    cases t with
    | optionsChange opts o =>
      have hca' : canAuth opts st.deviceAddress = false := hca
      rw [show Api.applyTrigger st (AuthTrigger.optionsChange opts o)
          = Api.destroySession
              (({ st with options := opts,
                          endpoints := computeEndpoints opts } : ApiState).setSession
                ApiSession.setAsDestroyed) by
        simp [Api.applyTrigger, ApiState.setSession, hca']]
      exact destroySession_proj _
    | addressChange a o =>
      have hca' : canAuth st.options a = false := hca
      rw [show Api.applyTrigger st (AuthTrigger.addressChange a o)
          = Api.destroySession ({ st with deviceAddress := a } : ApiState) by
        simp [Api.applyTrigger, hca']]
      exact destroySession_proj _

/-- C5 witness: an address change arriving with auto-auth configuration
present initiates a session establishment; an options change clearing the
configuration destroys the session. -/
theorem c5_witness :
    (verifyingCount (Api.applyTrigger
      { initialApiState with
        options := some ⟨"h", none, false, false, none⟩,
        endpoints := { http := some "http://h", ws := some "ws://h" } }
      (AuthTrigger.addressChange (some "0xA")
        { hashResult := some [1], signResult := some ("0xA", [2]),
          verifyResult := some "tok" })).sessionLog
      = verifyingCount ({ initialApiState with
          options := some ⟨"h", none, false, false, none⟩,
          endpoints := { http := some "http://h", ws := some "ws://h" } }
            : ApiState).sessionLog + 1)
    ∧ ((Api.applyTrigger initialApiState
        (AuthTrigger.optionsChange none
          { hashResult := none, signResult := none,
            verifyResult := none })).session.state = ApiSessionState.Destroyed) :=
  ⟨((c5_theorem
      { initialApiState with
        options := some ⟨"h", none, false, false, none⟩,
        endpoints := { http := some "http://h", ws := some "ws://h" } }
      (AuthTrigger.addressChange (some "0xA")
        { hashResult := some [1], signResult := some ("0xA", [2]),
          verifyResult := some "tok" })
      [AuthTrigger.addressChange none
        { hashResult := none, signResult := none, verifyResult := none }]
      0 (by decide)).1 (by decide) (by decide)),
   ((c5_theorem initialApiState
      (AuthTrigger.optionsChange none
        { hashResult := none, signResult := none, verifyResult := none })
      [AuthTrigger.addressChange none
        { hashResult := none, signResult := none, verifyResult := none }]
      0 (by decide)).2.1 (by decide)).1⟩

/-- The timer invariant only reads the timer bookkeeping fields. -/
theorem timerWellFormed_congr {s s' : ApiState}
    (ht : s'.activeTimers = s.activeTimers)
    (hr : s'.reconnectInterval = s.reconnectInterval)
    (hn : s'.nextTimerId = s.nextTimerId)
    (h : timerWellFormed s) : timerWellFormed s' := by
  unfold timerWellFormed at *
  rw [ht, hr, hn]
  exact h

/-- Cancelling the timer on a well-formed state leaves no armed timer and
keeps the invariant. -/
theorem clearReconnectTimer_timers (s : ApiState) (h : timerWellFormed s) :
    (Api.clearReconnectTimer s).activeTimers = []
    ∧ timerWellFormed (Api.clearReconnectTimer s) := by
  unfold timerWellFormed at *
  cases hr : s.reconnectInterval with
  | none =>
    rw [hr] at h
    simp [Api.clearReconnectTimer, hr, h]
  | some id =>
    rw [hr] at h
    have ht : (Api.clearReconnectTimer s).activeTimers = [] := by
      rcases h.1 with h1 | h1 <;> simp [Api.clearReconnectTimer, hr, h1]
    refine ⟨ht, ?_⟩
    have hri : (Api.clearReconnectTimer s).reconnectInterval = some id := by
      simp [Api.clearReconnectTimer, hr]
    rw [hri]
    exact ⟨Or.inl ht, by simpa [Api.clearReconnectTimer, hr] using h.2⟩

/-- Arming a fresh timer on a state with no armed timer leaves exactly that
one timer and keeps the invariant. -/
theorem armReconnectTimer_wf (s : ApiState) (h0 : s.activeTimers = []) :
    timerWellFormed (Api.armReconnectTimer s)
    ∧ (Api.armReconnectTimer s).activeTimers = [s.nextTimerId] := by
  constructor
  · unfold timerWellFormed
    simp [Api.armReconnectTimer, h0]
  · simp [Api.armReconnectTimer, h0]

/-- `openConnection` keeps the timer invariant. -/
theorem openConnection_wf (s : ApiState) (h : timerWellFormed s) :
    timerWellFormed (Api.openConnection s).1 := by
  have hc := clearReconnectTimer_timers s h
  obtain ⟨h1, h2, _, _, _, h6, _, _, _⟩ := clearReconnectTimer_proj s
  by_cases hws : s.endpoints.ws = none
  · simp only [Api.openConnection, h1, hws, if_pos rfl]
    exact hc.2
  · by_cases hv : s.session.state = ApiSessionState.Verified
    · cases hrt : (s.options.bind fun o => o.reconnectTimeout) with
      | none =>
        simp [Api.openConnection, h1, h2, h6, hws, hv, hrt]
        exact timerWellFormed_congr rfl rfl rfl hc.2
      | some rt =>
        simp [Api.openConnection, h1, h2, h6, hws, hv, hrt]
        exact (armReconnectTimer_wf _ hc.1).1
    · simp [Api.openConnection, h1, h2, h6, hws, hv]
      exact hc.2

/-- When the endpoint is configured, the session verified and a reconnect
timeout set, `openConnection` ends with exactly one armed timer. -/
theorem openConnection_arms (s : ApiState) (h : timerWellFormed s)
    (hws : s.endpoints.ws ≠ none)
    (hv : s.session.state = ApiSessionState.Verified)
    (hrt : (s.options.bind fun o => o.reconnectTimeout) ≠ none) :
    (Api.openConnection s).1.activeTimers.length = 1 := by
  have hc := clearReconnectTimer_timers s h
  obtain ⟨h1, h2, _, _, _, h6, _, _, _⟩ := clearReconnectTimer_proj s
  cases hrt' : (s.options.bind fun o => o.reconnectTimeout) with
  | none => exact absurd hrt' hrt
  | some rt =>
    simp [Api.openConnection, h1, h2, h6, hws, hv, hrt', Api.armReconnectTimer,
      hc.1]

/-- `closeConnection` disarms every timer and keeps the invariant. -/
theorem closeConnection_wf (s : ApiState) (h : timerWellFormed s) :
    timerWellFormed (Api.closeConnection s)
    ∧ (Api.closeConnection s).activeTimers = [] := by
  have hc := clearReconnectTimer_timers s h
  exact ⟨timerWellFormed_congr rfl rfl rfl hc.2, hc.1⟩

/-- `createSession` keeps the timer invariant. -/
theorem createSession_wf (o : SessionCallOutcomes) (st : ApiState)
    (h : timerWellFormed st) : timerWellFormed (Api.createSession o st).1 := by
  cases hh : st.endpoints.http <;>
    cases h1 : o.hashResult <;>
      cases h2 : o.signResult <;>
        cases h3 : o.verifyResult <;>
          (simp only [Api.createSession, ApiState.setSession, hh, h1, h2, h3]
           exact openConnection_wf _ (timerWellFormed_congr rfl rfl rfl h))

/-- `createSessionWrapped` keeps the timer invariant. -/
theorem createSessionWrapped_wf (o : SessionCallOutcomes) (st : ApiState)
    (h : timerWellFormed st) : timerWellFormed (Api.createSessionWrapped o st) := by
  have hp := createSessionWrapped_proj o st
  exact timerWellFormed_congr hp.2.2.2.1 hp.2.2.2.2.1 hp.2.2.2.2.2
    (createSession_wf o st h)

/-- `destroySession` disarms every timer and keeps the invariant. -/
theorem destroySession_wf (st : ApiState) (h : timerWellFormed st) :
    timerWellFormed (Api.destroySession st)
    ∧ (Api.destroySession st).activeTimers = [] :=
  closeConnection_wf _ (timerWellFormed_congr rfl rfl rfl h)

/-- Every operation keeps the timer invariant. -/
theorem applyOp_wf (st : ApiState) (op : ApiOp) (h : timerWellFormed st) :
    timerWellFormed (Api.applyOp st op) := by
  cases op with
  | trigger t =>
    cases t with
    | optionsChange opts o =>
      by_cases hca : canAuth opts st.deviceAddress = true
      · simp [Api.applyOp, Api.applyTrigger, ApiState.setSession, hca]
        exact createSessionWrapped_wf _ _ (timerWellFormed_congr rfl rfl rfl h)
      · simp [Api.applyOp, Api.applyTrigger, ApiState.setSession, hca]
        apply And.left
        apply destroySession_wf
        exact timerWellFormed_congr rfl rfl rfl h
    | addressChange a o =>
      by_cases hca : canAuth st.options a = true
      · simp [Api.applyOp, Api.applyTrigger, hca]
        exact createSessionWrapped_wf _ _ (timerWellFormed_congr rfl rfl rfl h)
      · simp [Api.applyOp, Api.applyTrigger, hca]
        apply And.left
        apply destroySession_wf
        exact timerWellFormed_congr rfl rfl rfl h
  | createSess o => exact createSessionWrapped_wf o st h
  | destroySess => exact (destroySession_wf st h).1
  | openConn => exact openConnection_wf st h
  | closeConn => exact (closeConnection_wf st h).1
  | tick =>
    by_cases hcond : st.activeTimers ≠ []
        ∧ st.connectionState = ApiConnectionState.Closed
    · simp [Api.applyOp, hcond]
      exact timerWellFormed_congr rfl rfl rfl h
    · simp [Api.applyOp, hcond]
      exact h
  | connSettled ok =>
    by_cases hcond : st.connectionState = ApiConnectionState.Connecting
    · simp [Api.applyOp, hcond]
      exact timerWellFormed_congr rfl rfl rfl h
    · simp [Api.applyOp, hcond]
      exact h

/-- The timer invariant holds along every run from the constructed state. -/
theorem runOps_wf (ops : List ApiOp) (st : ApiState) (h : timerWellFormed st) :
    timerWellFormed (Api.runOps st ops) := by
  induction ops generalizing st with
  | nil => exact h
  | cons op rest ih => exact ih (Api.applyOp st op) (applyOp_wf st op h)

/-- The constructed state satisfies the timer invariant. -/
theorem initialApiState_wf : timerWellFormed initialApiState := by
  unfold timerWellFormed initialApiState
  simp

/-- A well-formed state has at most one armed timer. -/
theorem timerWellFormed_length (s : ApiState) (h : timerWellFormed s) :
    s.activeTimers.length ≤ 1 := by
  unfold timerWellFormed at h
  cases hr : s.reconnectInterval with
  | none => rw [hr] at h; simp [h]
  | some id => rw [hr] at h; rcases h.1 with h1 | h1 <;> simp [h1]

/-- C7: along every operation sequence at most one reconnect timer is armed;
appending an explicit `closeConnection` leaves no armed timer; and two
`openConnection` calls in a row from a verified, configured state leave
exactly one armed timer — re-arming cancels the previous timer first. -/
theorem c7_theorem (ops : List ApiOp) (n : Nat) (st : ApiState)
    (hwf : timerWellFormed st)
    (hv : st.session.state = ApiSessionState.Verified)
    (hws : st.endpoints.ws ≠ none)
    (hrt : (st.options.bind fun o => o.reconnectTimeout) ≠ none) :
    ((Api.runOps initialApiState (ops.take n)).activeTimers.length ≤ 1)
    ∧ ((Api.runOps initialApiState (ops ++ [ApiOp.closeConn])).activeTimers = [])
    ∧ ((Api.applyOp (Api.applyOp st ApiOp.openConn) ApiOp.openConn).activeTimers.length
        = 1) := by
  obtain ⟨p1, p2, _, _, p5, p6⟩ := openConnection_proj st
  refine ⟨?_, ?_, ?_⟩
  · exact timerWellFormed_length _
      (runOps_wf (ops.take n) initialApiState initialApiState_wf)
  · have hrun : Api.runOps initialApiState (ops ++ [ApiOp.closeConn])
        = Api.closeConnection (Api.runOps initialApiState ops) := by
      simp [Api.runOps, List.foldl_append, Api.applyOp]
    rw [hrun]
    exact (closeConnection_wf _ (runOps_wf ops initialApiState initialApiState_wf)).2
  · show (Api.openConnection (Api.openConnection st).1).1.activeTimers.length = 1
    apply openConnection_arms
    · exact openConnection_wf st hwf
    · rw [p1]; exact hws
    · rw [p2]; exact hv
    · rw [p5]; exact hrt

/-- C7 witness: the theorem applied to a verified state with a reconnect
timeout configured. -/
theorem c7_witness :
    (Api.applyOp (Api.applyOp
      { options := some ⟨"h", none, false, false, some 5⟩,
        deviceAddress := some "0xA",
        endpoints := { http := some "http://h", ws := some "ws://h" },
        session := { state := ApiSessionState.Verified, token := some "tok" },
        sessionLog := [], connectionState := ApiConnectionState.Closed,
        activeTimers := [], reconnectInterval := none, nextTimerId := 0,
        errorChannel := [] } ApiOp.openConn) ApiOp.openConn).activeTimers.length
      = 1 :=
  (c7_theorem [] 0
    { options := some ⟨"h", none, false, false, some 5⟩,
      deviceAddress := some "0xA",
      endpoints := { http := some "http://h", ws := some "ws://h" },
      session := { state := ApiSessionState.Verified, token := some "tok" },
      sessionLog := [], connectionState := ApiConnectionState.Closed,
      activeTimers := [], reconnectInterval := none, nextTimerId := 0,
      errorChannel := [] }
    rfl rfl (by decide) (by decide)).2.2

/-- C9: on an account-updated event for the locally tracked account, both
local copies are replaced exactly when both re-fetches return non-null data;
when either fetch fails or returns null — or the event is for another
account — neither local copy changes. -/
theorem c9_theorem {α β : Type} (localEnsName : Option String)
    (localAccount : Option α) (localDevice : Option β) (evEnsName : String)
    (fetchAccount : Option α) (fetchDevice : Option β) :
    (localEnsName = some evEnsName →
      ∀ (a : α) (d : β), fetchAccount = some a → fetchDevice = some d →
        Sdk.handleAccountUpdated localEnsName localAccount localDevice
          evEnsName fetchAccount fetchDevice = (some a, some d))
    ∧ (localEnsName = some evEnsName →
      fetchAccount = none ∨ fetchDevice = none →
        Sdk.handleAccountUpdated localEnsName localAccount localDevice
          evEnsName fetchAccount fetchDevice = (localAccount, localDevice))
    ∧ (localEnsName ≠ some evEnsName →
        Sdk.handleAccountUpdated localEnsName localAccount localDevice
          evEnsName fetchAccount fetchDevice = (localAccount, localDevice)) := by
  refine ⟨?_, ?_, ?_⟩
  · intro hm a d ha hd
    simp [Sdk.handleAccountUpdated, hm, ha, hd]
  · intro hm hfail
    rcases hfail with hf | hf <;>
      cases hother : fetchAccount <;>
        cases hother2 : fetchDevice <;>
          simp_all [Sdk.handleAccountUpdated]
  · intro hm
    simp [Sdk.handleAccountUpdated, hm]

/-- C9 witness: the theorem applied to a matching event with both fetches
succeeding, and to one whose device fetch fails. -/
theorem c9_witness :
    (Sdk.handleAccountUpdated (some "acc.id") (some 1) (some 2) "acc.id"
      (some 10) (some 20) = (some 10, some 20))
    ∧ (Sdk.handleAccountUpdated (some "acc.id") (some 1) (some 2) "acc.id"
      (some 10) (none : Option Nat) = (some 1, some 2)) :=
  ⟨(c9_theorem (some "acc.id") (some 1) (some 2) "acc.id"
      (some 10) (some 20)).1 rfl 10 20 rfl rfl,
   (c9_theorem (some "acc.id") (some 1) (some 2) "acc.id"
      (some 10) (none : Option Nat)).2.1 rfl (Or.inr rfl)⟩

/-- C1 witness: the amended theorem applied to the concrete operation sequence
used by `createSession` on the success path. -/
theorem c1_witness :
    sessionInvariant (runSessionOps (ApiSession.prepareAttributes none)
      ([SessionOp.setAsVerifying none, SessionOp.setAsVerified "tok",
        SessionOp.setAsDestroyed].take 3)) :=
  (c1_theorem
    [SessionOp.setAsVerifying none, SessionOp.setAsVerified "tok", SessionOp.setAsDestroyed]
    (by intro t ht; simp at ht; exact ht)).1 3

end BlockId

